import Mathlib

/-!
Shallow embedding of the `billing_sdk` Python package (files
`src/billing_sdk/client.py` and `src/billing_sdk/decorators.py`), together
with theorems settling the specification claims about it.

Modelling conventions:
* Python `time.time()` (seconds, monotonic enough for the code's purposes) is
  a rational `now : ℚ` passed explicitly; millisecond timestamps from
  `int(time.time() * 1000)` are an `Int` passed explicitly.
* Python `set[str]` becomes `Finset String`; the unbounded `asyncio.Queue`
  becomes a `List UsageData` (`get` takes the head, `put` appends).
* A `dict[str, Any]` metadata mapping is an association list
  `List (String × String)` (the values are opaque to the SDK; only emptiness
  and pass-through matter). Python truthiness of `None` / `{}` is modelled by
  `Option` emptiness.
* Fallible operations return `Except String`; the outcome of an MQTT publish
  or connect that the code performs is an explicit `Bool` parameter
  (`publishOk`, `connectSucceeds`), since the network is external.
-/

/-- `UsageData` dataclass, client.py lines 14-22. -/
structure UsageData where
  api_key : String
  module : String
  model : String
  usage : Int
  metadata : Option (List (String × String))
deriving Repr, DecidableEq

/-- The mutable fields of the `BillingClient` singleton that the claims
concern, client.py lines 50-89.  `has_client` models `self._client is not None`. -/
structure ClientState where
  is_connected : Bool
  has_client : Bool
  valid_keys : Finset String
  blocked_keys : Finset String
  has_key_status_callback : Bool
  usage_queue : List UsageData
  reconnecting : Bool
  last_reconnect_time : ℚ
  reconnect_attempts : Nat
  last_heartbeat_success : ℚ
deriving DecidableEq

/-- Constant `self._reconnect_delay = 5.0`, client.py line 80. -/
def reconnectDelay : ℚ := 5

/-- Constant `self._max_reconnect_attempts = 3`, client.py line 81. -/
def maxReconnectAttempts : Nat := 3

/-- Constant `self._connection_timeout = 30.0`, client.py line 86. -/
def connectionTimeout : ℚ := 30

/-- State established by `__init__` (client.py lines 50-89): no client, no
connection, empty key sets, empty queue, backoff counters zeroed,
`last_heartbeat_success = time.time()` (the construction instant `t0`). -/
def initialState (t0 : ℚ) : ClientState :=
  { is_connected := false
    has_client := false
    valid_keys := ∅
    blocked_keys := ∅
    has_key_status_callback := false
    usage_queue := []
    reconnecting := false
    last_reconnect_time := 0
    reconnect_attempts := 0
    last_heartbeat_success := t0 }

/-- `BillingClient.is_connected`, client.py lines 140-142:
`self._is_connected and self._client is not None`. -/
def ClientState.isConnected (s : ClientState) : Bool :=
  s.is_connected && s.has_client

/-- `BillingClient.is_key_valid`, client.py lines 522-524:
`return api_key in self._valid_keys`. -/
def isKeyValid (s : ClientState) (api_key : String) : Bool :=
  decide (api_key ∈ s.valid_keys)

/-- One element of the `updates` array of a key-update message,
spec §6 KeyUpdateMessage; fields read in client.py lines 481-483. -/
structure KeyUpdate where
  key : String
  status : String
  reason : String
deriving Repr, DecidableEq

/-- The per-update mutation of the key sets performed by
`_handle_key_status_update` (client.py lines 485-500): status `"blocked"`
discards from `_valid_keys` and adds to `_blocked_keys`; status `"ok"` does
the reverse; any other status touches neither set. -/
def applyStatus (s : ClientState) (u : KeyUpdate) : ClientState :=
  if u.status = "blocked" then
    { s with valid_keys := s.valid_keys.erase u.key
             blocked_keys := insert u.key s.blocked_keys }
  else if u.status = "ok" then
    { s with valid_keys := insert u.key s.valid_keys
             blocked_keys := s.blocked_keys.erase u.key }
  else s

/-- The `for update in updates` loop of `_handle_key_status_update`
(client.py lines 480-507).  After the set mutation, the registered user
callback is awaited (lines 503-504); `raises u = true` models the callback
raising on `u`.  The only `try` is the one wrapping the whole loop
(lines 471-507), so a raising callback aborts the remaining iterations;
the outer `except` logs and returns, so no exception escapes the handler
and the message stream continues. -/
def handleUpdates (raises : KeyUpdate → Bool) (s : ClientState) :
    List KeyUpdate → ClientState
  | [] => s
  | u :: rest =>
    let s' := applyStatus s u
    if s.has_key_status_callback && raises u then s'
    else handleUpdates raises s' rest

/-- `_mask_api_key`, decorators.py lines 12-17. -/
def maskApiKey (api_key : String) : String :=
  if api_key.length > 8 then
    api_key.take 8 ++ String.mk (List.replicate (api_key.length - 8) '*')
  else
    String.mk (List.replicate api_key.length '*')

section KeyStoreLemmas

lemma applyStatus_callback (s : ClientState) (u : KeyUpdate) :
    (applyStatus s u).has_key_status_callback = s.has_key_status_callback := by
  unfold applyStatus
  split <;> [rfl; (split <;> rfl)]

lemma applyStatus_disjoint (s : ClientState) (u : KeyUpdate)
    (h : ∀ k, k ∈ s.valid_keys → k ∉ s.blocked_keys) :
    ∀ k, k ∈ (applyStatus s u).valid_keys → k ∉ (applyStatus s u).blocked_keys := by
  intro k
  unfold applyStatus
  split
  · intro hv
    simp only [Finset.mem_erase] at hv
    simp only [Finset.mem_insert]
    push_neg
    exact ⟨hv.1, h k hv.2⟩
  · split
    · intro hv
      simp only [Finset.mem_insert] at hv
      simp only [Finset.mem_erase]
      rcases hv with h1 | h2
      · intro hc
        exact hc.1 (by rw [h1])
      · intro hc
        exact h k h2 hc.2
    · exact h k

lemma handleUpdates_disjoint (raises : KeyUpdate → Bool) (us : List KeyUpdate)
    (s : ClientState) (h : ∀ k, k ∈ s.valid_keys → k ∉ s.blocked_keys) :
    ∀ k, k ∈ (handleUpdates raises s us).valid_keys →
      k ∉ (handleUpdates raises s us).blocked_keys := by
  induction us generalizing s with
  | nil => exact h
  | cons u rest ih =>
    unfold handleUpdates
    split
    · exact applyStatus_disjoint s u h
    · exact ih (applyStatus s u) (applyStatus_disjoint s u h)

end KeyStoreLemmas

/-- C1: `is_key_valid(k)` is true iff `k` is in the valid-keys set; any key
outside both sets — in particular every key in the freshly constructed state,
before any key-update message — is reported invalid (fail-closed). -/
theorem is_key_valid_fail_closed (s : ClientState) (k : String) (t0 : ℚ) :
    (isKeyValid s k = true ↔ k ∈ s.valid_keys) ∧
    (k ∉ s.valid_keys → k ∉ s.blocked_keys → isKeyValid s k = false) ∧
    isKeyValid (initialState t0) k = false := by
  refine ⟨by simp [isKeyValid], fun hv _ => by simp [isKeyValid, hv], ?_⟩
  simp [isKeyValid, initialState]

theorem is_key_valid_fail_closed_witness :
    isKeyValid (initialState 0) "sk-unknown" = false ∧
    isKeyValid { initialState 0 with valid_keys := {"sk-a"} } "sk-b" = false := by
  refine ⟨(is_key_valid_fail_closed (initialState 0) "sk-unknown" 0).2.2, ?_⟩
  exact (is_key_valid_fail_closed _ "sk-b" 0).2.1 (by decide) (by decide)

/-- C2: starting from the empty initial state, processing any sequence of
key-update messages (each message a list of updates handled by
`_handle_key_status_update`, whatever the user callback does) keeps the
valid-keys set and the blocked-keys set disjoint. -/
theorem valid_blocked_disjoint (t0 : ℚ) (raises : KeyUpdate → Bool)
    (msgs : List (List KeyUpdate)) :
    (msgs.foldl (handleUpdates raises) (initialState t0)).valid_keys ∩
      (msgs.foldl (handleUpdates raises) (initialState t0)).blocked_keys = ∅ := by
  have key : ∀ (ms : List (List KeyUpdate)) (s : ClientState),
      (∀ k, k ∈ s.valid_keys → k ∉ s.blocked_keys) →
      ∀ k, k ∈ (ms.foldl (handleUpdates raises) s).valid_keys →
        k ∉ (ms.foldl (handleUpdates raises) s).blocked_keys := by
    intro ms
    induction ms with
    | nil => intro s h; exact h
    | cons m rest ih =>
      intro s h
      exact ih (handleUpdates raises s m) (handleUpdates_disjoint raises m s h)
  have h0 : ∀ k, k ∈ (initialState t0).valid_keys →
      k ∉ (initialState t0).blocked_keys := by
    intro k hk
    simp [initialState] at hk
  exact Finset.eq_empty_of_forall_not_mem fun k hk => by
    rw [Finset.mem_inter] at hk
    exact key msgs (initialState t0) h0 k hk.1 hk.2

section MaskLemmas

lemma maskApiKey_short (k : String) (h : ¬ k.length > 8) :
    maskApiKey k = String.mk (List.replicate k.length '*') := by
  unfold maskApiKey
  simp [h]

end MaskLemmas

/-- C9 counterexample: the claim says that for every key of length ≤ 8 the
mask contains no characters of the original key; the key `"*"` (length 1)
is masked to `"*"`, which consists of a character of the original key. -/
theorem mask_short_key_counterexample :
    ("*" : String).length ≤ 8 ∧
    ¬ (∀ c ∈ (maskApiKey "*").data, c ∉ ("*" : String).data) := by
  constructor
  · decide
  · intro h
    exact h '*' (by decide) (by decide)

/-- C9 amended: for keys of length > 8 the mask is the first 8 characters
followed by one `'*'` per remaining character; for keys of length ≤ 8 the
mask is `'*'` repeated length-many times — hence it contains no character of
the original key whenever the key does not itself contain `'*'`. -/
theorem mask_api_key_spec (k : String) :
    (k.length > 8 →
      maskApiKey k = k.take 8 ++ String.mk (List.replicate (k.length - 8) '*')) ∧
    (k.length ≤ 8 → maskApiKey k = String.mk (List.replicate k.length '*')) ∧
    (k.length ≤ 8 → '*' ∉ k.data → ∀ c ∈ (maskApiKey k).data, c ∉ k.data) := by
  refine ⟨fun h => by unfold maskApiKey; simp [h], fun h => maskApiKey_short k (by omega), ?_⟩
  intro h hstar c hc
  rw [maskApiKey_short k (by omega)] at hc
  simp only [String.data] at hc
  rw [List.eq_of_mem_replicate hc]
  exact hstar

theorem mask_api_key_spec_witness :
    maskApiKey "sk-test-12345" = "sk-test-*****" ∧
    maskApiKey "short" = "*****" ∧
    (∀ c ∈ (maskApiKey "short").data, c ∉ ("short" : String).data) := by
  refine ⟨?_, ?_, ?_⟩
  · have := (mask_api_key_spec "sk-test-12345").1 (by decide)
    rw [this]; decide
  · have := (mask_api_key_spec "short").2.1 (by decide)
    rw [this]; decide
  · exact (mask_api_key_spec "short").2.2 (by decide) (by decide)

section CallbackAbort

lemma handleUpdates_no_raise (raises : KeyUpdate → Bool) (pre : List KeyUpdate)
    (s : ClientState) (hpre : ∀ v ∈ pre, raises v = false) :
    handleUpdates raises s pre = pre.foldl applyStatus s := by
  induction pre generalizing s with
  | nil => rfl
  | cons v rest ih =>
    unfold handleUpdates
    rw [hpre v (List.mem_cons_self v rest)]
    simp only [Bool.and_false, Bool.false_eq_true, if_neg (Bool.false_ne_true)]
    exact ih (applyStatus s v) fun w hw => hpre w (List.mem_cons_of_mem v hw)

lemma foldl_applyStatus_callback (pre : List KeyUpdate) (s : ClientState) :
    (pre.foldl applyStatus s).has_key_status_callback = s.has_key_status_callback := by
  induction pre generalizing s with
  | nil => rfl
  | cons v rest ih => rw [List.foldl_cons, ih, applyStatus_callback]

end CallbackAbort

/-- C7 counterexample: with a registered callback that raises on key `"k1"`,
the message `[{key:"k1",status:"ok"}, {key:"k2",status:"ok"}]` leaves `"k2"`
outside the valid set — the exception escapes the `for` loop to the
message-level handler, so the second update is never applied, contradicting
the claim that subsequent updates are still performed. -/
theorem callback_abort_counterexample :
    isKeyValid
      (handleUpdates (fun u => u.key = "k1")
        { initialState 0 with has_key_status_callback := true }
        [⟨"k1", "ok", ""⟩, ⟨"k2", "ok", ""⟩])
      "k2" = false := by
  decide

/-- C7 amended: when the registered user callback raises on update `u` of a
key-update message, the store reflects every update up to and including `u`,
but the remaining updates of that same message are skipped (the exception is
caught only by the handler wrapping the whole message, which logs it and
returns, so the inbound stream itself continues). -/
theorem callback_abort_behavior (s : ClientState) (pre post : List KeyUpdate)
    (u : KeyUpdate) (raises : KeyUpdate → Bool)
    (hcb : s.has_key_status_callback = true)
    (hpre : ∀ v ∈ pre, raises v = false) (hu : raises u = true) :
    handleUpdates raises s (pre ++ u :: post) =
      applyStatus (pre.foldl applyStatus s) u := by
  induction pre generalizing s with
  | nil =>
    rw [List.nil_append]
    unfold handleUpdates
    rw [hcb, hu]
    simp
  | cons v rest ih =>
    rw [List.cons_append]
    unfold handleUpdates
    rw [hpre v (List.mem_cons_self v rest)]
    simp only [Bool.and_false, Bool.false_eq_true, if_neg (Bool.false_ne_true),
      List.foldl_cons]
    exact ih (applyStatus s v)
      (by rw [applyStatus_callback]; exact hcb)
      fun w hw => hpre w (List.mem_cons_of_mem v hw)

theorem callback_abort_behavior_witness :
    handleUpdates (fun u => u.key = "k1")
      { initialState 0 with has_key_status_callback := true }
      [⟨"k0", "ok", ""⟩, ⟨"k1", "ok", ""⟩, ⟨"k2", "ok", ""⟩] =
      applyStatus
        ([(⟨"k0", "ok", ""⟩ : KeyUpdate)].foldl applyStatus
          { initialState 0 with has_key_status_callback := true })
        ⟨"k1", "ok", ""⟩ :=
  callback_abort_behavior _ [⟨"k0", "ok", ""⟩] [⟨"k2", "ok", ""⟩]
    ⟨"k1", "ok", ""⟩ _ rfl (by decide) (by decide)

/-- `BillingClient._should_reconnect`, client.py lines 144-160.  Returns the
decision together with the state, because the cooldown branch mutates
`self._reconnect_attempts = 0` before returning `True`. -/
def shouldReconnect (s : ClientState) (now : ℚ) : Bool × ClientState :=
  if now - s.last_reconnect_time < reconnectDelay then (false, s)
  else if s.reconnect_attempts ≥ maxReconnectAttempts then
    if now - s.last_reconnect_time > reconnectDelay * 2 then
      (true, { s with reconnect_attempts := 0 })
    else (false, s)
  else (true, s)

/-- `BillingClient._cleanup_connection`, client.py lines 196-205:
`self._is_connected = False`, `self._client = None` (the `__aexit__` of the
old client is best-effort and swallowed). -/
def cleanupConnection (s : ClientState) : ClientState :=
  { s with is_connected := false, has_client := false }

/-- The state effect of `await self.connect()` as invoked from the reconnect
path (client.py lines 207-258), abstracted over the network outcome
`succeeds`: on success `_is_connected = True`, `_client` is set and
`_last_heartbeat_success = time.time()`; on failure the `except` branch runs
`_cleanup_connection` and re-raises. -/
def connectOutcome (s : ClientState) (now : ℚ) (succeeds : Bool) : ClientState :=
  if succeeds then
    { s with is_connected := true, has_client := true, last_heartbeat_success := now }
  else cleanupConnection s

/-- `BillingClient._reconnect_with_backoff`, client.py lines 162-194:
reject if `_reconnecting`; reject if `_should_reconnect()` says no; otherwise
set `_reconnecting`, stamp `_last_reconnect_time`, bump `_reconnect_attempts`,
clean up the old connection and reconnect; on success zero the attempt
counter and return `True`; on exception return `False`; the `finally` clause
always clears `_reconnecting`. -/
def reconnectWithBackoff (s : ClientState) (now : ℚ) (connectSucceeds : Bool) :
    Bool × ClientState :=
  if s.reconnecting then (false, s)
  else
    let gate := shouldReconnect s now
    if gate.1 then
      let s₂ := { gate.2 with reconnecting := true, last_reconnect_time := now,
                              reconnect_attempts := gate.2.reconnect_attempts + 1 }
      let s₃ := connectOutcome (cleanupConnection s₂) now connectSucceeds
      if connectSucceeds then
        (true, { s₃ with reconnect_attempts := 0, reconnecting := false })
      else (false, { s₃ with reconnecting := false })
    else (false, gate.2)

/-- The synchronous prefix of `_reconnect_with_backoff` (client.py lines
164-172), up to and including taking the reconnect slot.  This fragment
contains no `await`, so under asyncio's cooperative single-threaded
scheduling it executes atomically: concurrent triggers are serialized as
consecutive runs of this function. -/
def tryEnterReconnect (s : ClientState) (now : ℚ) : Bool × ClientState :=
  if s.reconnecting then (false, s)
  else if (shouldReconnect s now).1 then
    (true, { (shouldReconnect s now).2 with
               reconnecting := true
               last_reconnect_time := now
               reconnect_attempts := (shouldReconnect s now).2.reconnect_attempts + 1 })
  else (false, (shouldReconnect s now).2)

/-- Sequential execution of the atomic entry sections of `k` concurrent
reconnect triggers (arriving at the given instants), counting how many took
the slot. -/
def runTriggers (s : ClientState) : List ℚ → Nat × ClientState
  | [] => (0, s)
  | t :: ts =>
    let r := tryEnterReconnect s t
    let rest := runTriggers r.2 ts
    ((if r.1 then 1 else 0) + rest.1, rest.2)

section BackoffLemmas

lemma shouldReconnect_false (s : ClientState) (now : ℚ)
    (h : (shouldReconnect s now).1 = false) :
    shouldReconnect s now = (false, s) := by
  unfold shouldReconnect at h ⊢
  split_ifs at h ⊢ <;> simp_all

lemma reconnectWithBackoff_reconnecting (s : ClientState) (now : ℚ) (c : Bool)
    (h : s.reconnecting = true) :
    reconnectWithBackoff s now c = (false, s) := by
  unfold reconnectWithBackoff
  simp [h]

lemma reconnectWithBackoff_gate_false (s : ClientState) (now : ℚ) (c : Bool)
    (h : (shouldReconnect s now).1 = false) :
    reconnectWithBackoff s now c = (false, s) := by
  unfold reconnectWithBackoff
  cases hr : s.reconnecting
  · rw [shouldReconnect_false s now h]
    simp
  · simp

lemma reconnectWithBackoff_permit (s : ClientState) (now : ℚ) (c : Bool)
    (s₁ : ClientState) (hr : s.reconnecting = false)
    (h : shouldReconnect s now = (true, s₁)) :
    reconnectWithBackoff s now c =
      (c, { s₁ with reconnecting := false
                    last_reconnect_time := now
                    reconnect_attempts := if c then 0 else s₁.reconnect_attempts + 1
                    is_connected := c
                    has_client := c
                    last_heartbeat_success :=
                      if c then now else s₁.last_heartbeat_success }) := by
  unfold reconnectWithBackoff
  rw [hr, h]
  cases c <;> simp [cleanupConnection, connectOutcome]

lemma shouldReconnect_rate_limited (s : ClientState) (now : ℚ)
    (h : now - s.last_reconnect_time < reconnectDelay) :
    shouldReconnect s now = (false, s) := by
  unfold shouldReconnect
  rw [if_pos h]

lemma shouldReconnect_cooldown_reject (s : ClientState) (now : ℚ)
    (h1 : s.reconnect_attempts ≥ maxReconnectAttempts)
    (h2 : ¬ now - s.last_reconnect_time > reconnectDelay * 2) :
    shouldReconnect s now = (false, s) := by
  unfold shouldReconnect
  split_ifs <;> simp_all

lemma shouldReconnect_cooldown_permit (s : ClientState) (now : ℚ)
    (h1 : s.reconnect_attempts ≥ maxReconnectAttempts)
    (h2 : now - s.last_reconnect_time > reconnectDelay * 2) :
    shouldReconnect s now = (true, { s with reconnect_attempts := 0 }) := by
  unfold shouldReconnect
  have hge : ¬ now - s.last_reconnect_time < reconnectDelay := by
    unfold reconnectDelay at h2 ⊢
    linarith
  rw [if_neg hge, if_pos h1, if_pos h2]

lemma shouldReconnect_normal_permit (s : ClientState) (now : ℚ)
    (h1 : ¬ now - s.last_reconnect_time < reconnectDelay)
    (h2 : s.reconnect_attempts < maxReconnectAttempts) :
    shouldReconnect s now = (true, s) := by
  unfold shouldReconnect
  rw [if_neg h1, if_neg (by omega : ¬ s.reconnect_attempts ≥ maxReconnectAttempts)]

end BackoffLemmas

/-- C3: the reconnect gate of `_should_reconnect` / `_reconnect_with_backoff`:
a trigger inside the rate-limit window (`now − last < D`, `D = 5`) is
rejected and changes nothing; once `attempts ≥ A` (`A = 3`) a trigger is
rejected unless `now − last > D·M` (`M = 2`), and a permitted cooldown
trigger first resets the attempt counter to `0` in the gate; every permitted
attempt then takes the slot — stamping `last_reconnect_time := now` and
bumping the (possibly just reset) counter — and a successful open resets the
counter to `0` while a failed open leaves the bump in place. -/
theorem backoff_gate (s : ClientState) (now : ℚ) (c : Bool) :
    (now - s.last_reconnect_time < reconnectDelay →
      reconnectWithBackoff s now c = (false, s)) ∧
    (s.reconnect_attempts ≥ maxReconnectAttempts →
      ¬ now - s.last_reconnect_time > reconnectDelay * 2 →
      reconnectWithBackoff s now c = (false, s)) ∧
    (s.reconnect_attempts ≥ maxReconnectAttempts →
      now - s.last_reconnect_time > reconnectDelay * 2 →
      shouldReconnect s now = (true, { s with reconnect_attempts := 0 }) ∧
      (s.reconnecting = false →
        (reconnectWithBackoff s now c).1 = c ∧
        (reconnectWithBackoff s now c).2.last_reconnect_time = now ∧
        (reconnectWithBackoff s now c).2.reconnect_attempts
          = (if c then 0 else 1) ∧
        (reconnectWithBackoff s now c).2.reconnecting = false)) ∧
    (s.reconnecting = false →
      ¬ now - s.last_reconnect_time < reconnectDelay →
      s.reconnect_attempts < maxReconnectAttempts →
      (reconnectWithBackoff s now c).1 = c ∧
      (reconnectWithBackoff s now c).2.last_reconnect_time = now ∧
      (reconnectWithBackoff s now c).2.reconnect_attempts
        = (if c then 0 else s.reconnect_attempts + 1) ∧
      (reconnectWithBackoff s now c).2.reconnecting = false) := by
  refine ⟨?_, ?_, ?_, ?_⟩
  · intro h
    exact reconnectWithBackoff_gate_false s now c
      (by rw [shouldReconnect_rate_limited s now h])
  · intro h1 h2
    exact reconnectWithBackoff_gate_false s now c
      (by rw [shouldReconnect_cooldown_reject s now h1 h2])
  · intro h1 h2
    have hg := shouldReconnect_cooldown_permit s now h1 h2
    refine ⟨hg, fun hr => ?_⟩
    rw [reconnectWithBackoff_permit s now c _ hr hg]
    cases c <;> simp
  · intro hr h1 h2
    have hg := shouldReconnect_normal_permit s now h1 h2
    rw [reconnectWithBackoff_permit s now c _ hr hg]
    cases c <;> simp

theorem backoff_gate_witness :
    reconnectWithBackoff (initialState 0) 3 true = (false, initialState 0) ∧
    reconnectWithBackoff { initialState 0 with reconnect_attempts := 3 } 8 true
      = (false, { initialState 0 with reconnect_attempts := 3 }) ∧
    (reconnectWithBackoff { initialState 0 with reconnect_attempts := 3 } 11
        false).2.reconnect_attempts = 1 ∧
    (reconnectWithBackoff (initialState 0) 6 true).2.reconnect_attempts = 0 := by
  refine ⟨?_, ?_, ?_, ?_⟩
  · exact (backoff_gate (initialState 0) 3 true).1 (by norm_num [initialState, reconnectDelay])
  · exact (backoff_gate _ 8 true).2.1 (by norm_num [maxReconnectAttempts])
      (by norm_num [initialState, reconnectDelay])
  · have := ((backoff_gate { initialState 0 with reconnect_attempts := 3 } 11
        false).2.2.1 (by norm_num [maxReconnectAttempts])
        (by norm_num [initialState, reconnectDelay])).2 rfl
    simpa using this.2.2.1
  · have := (backoff_gate (initialState 0) 6 true).2.2.2 rfl
      (by norm_num [initialState, reconnectDelay])
      (by norm_num [initialState, maxReconnectAttempts])
    simpa using this.2.2.1

section InterlockLemmas

lemma tryEnterReconnect_reconnecting (s : ClientState) (t : ℚ)
    (h : s.reconnecting = true) : tryEnterReconnect s t = (false, s) := by
  unfold tryEnterReconnect
  simp [h]

lemma tryEnterReconnect_sets_flag (s : ClientState) (t : ℚ) (s₁ : ClientState)
    (h : tryEnterReconnect s t = (true, s₁)) : s₁.reconnecting = true := by
  unfold tryEnterReconnect at h
  split_ifs at h with h1 h2
  · simp at h
  · have hsnd := congrArg Prod.snd h
    simp only at hsnd
    rw [← hsnd]
  · simp at h

lemma tryEnterReconnect_initial :
    tryEnterReconnect (initialState 0) 10 =
      (true, { initialState 0 with reconnecting := true
                                   last_reconnect_time := 10
                                   reconnect_attempts := 1 }) := by
  unfold tryEnterReconnect
  rw [shouldReconnect_normal_permit _ _
    (by norm_num [initialState, reconnectDelay])
    (by norm_num [initialState, maxReconnectAttempts])]
  simp [initialState]

lemma runTriggers_reconnecting (ts : List ℚ) (s : ClientState)
    (h : s.reconnecting = true) : runTriggers s ts = (0, s) := by
  induction ts generalizing s with
  | nil => rfl
  | cons t rest ih =>
    unfold runTriggers
    rw [tryEnterReconnect_reconnecting s t h]
    simp [ih s h]

end InterlockLemmas

/-- C4: under `k` concurrent reconnect triggers — serialized, as asyncio's
cooperative scheduler does, into consecutive runs of the `await`-free entry
section of `_reconnect_with_backoff` — if the first trigger takes the slot
then exactly one attempt is executed: every later caller observes
`_reconnecting` set and returns `False` immediately, leaving
`_last_reconnect_time` and `_reconnect_attempts` (indeed the whole state)
untouched. -/
theorem reconnect_interlock (s : ClientState) (t0 : ℚ) (ts : List ℚ)
    (s₁ : ClientState) (h : tryEnterReconnect s t0 = (true, s₁)) :
    runTriggers s (t0 :: ts) = (1, s₁) := by
  have hflag := tryEnterReconnect_sets_flag s t0 s₁ h
  unfold runTriggers
  rw [h]
  simp [runTriggers_reconnecting ts s₁ hflag]

theorem reconnect_interlock_witness :
    runTriggers (initialState 0) [10, 10, 10] =
      (1, { initialState 0 with reconnecting := true
                                last_reconnect_time := 10
                                reconnect_attempts := 1 }) :=
  reconnect_interlock (initialState 0) 10 [10, 10] _ tryEnterReconnect_initial

/-- One iteration of the `_queue_consumer_loop` body (client.py lines
370-407), after a record was obtained from the queue (the timeout branch,
which gets nothing, is the `[]` case and does nothing).  If `is_connected()`
is false the record is put back (an `asyncio.Queue.put` appends at the tail)
and no publish is attempted; otherwise `_send_usage_data` is attempted —
`publishOk` is its outcome — and on failure the record is put back and
`self._is_connected = False`.  The returned list holds the records published
to `billing/report` during this iteration. -/
def queueConsumerStep (s : ClientState) (publishOk : Bool) :
    ClientState × List UsageData :=
  match s.usage_queue with
  | [] => (s, [])
  | d :: rest =>
    if s.isConnected = false then
      ({ s with usage_queue := rest ++ [d] }, [])
    else if publishOk then
      ({ s with usage_queue := rest }, [d])
    else
      ({ s with usage_queue := rest ++ [d], is_connected := false }, [])

/-- C5: the drainer never drops a dequeued record: with queue head `d`, if
the session is not connected `d` is re-enqueued and nothing is published; if
the publish fails `d` is re-enqueued and the session is marked
not-connected; if the publish succeeds `d` is exactly what was published —
and in every case the multiset of records in the queue plus those published
is unchanged. -/
theorem drainer_no_loss (s : ClientState) (publishOk : Bool) (d : UsageData)
    (rest : List UsageData) (hq : s.usage_queue = d :: rest) :
    (d ∈ (queueConsumerStep s publishOk).1.usage_queue ∨
      d ∈ (queueConsumerStep s publishOk).2) ∧
    (s.isConnected = false →
      queueConsumerStep s publishOk = ({ s with usage_queue := rest ++ [d] }, [])) ∧
    (s.isConnected = true → publishOk = false →
      queueConsumerStep s publishOk =
        ({ s with usage_queue := rest ++ [d], is_connected := false }, [])) ∧
    (s.isConnected = true → publishOk = true →
      queueConsumerStep s publishOk = ({ s with usage_queue := rest }, [d])) ∧
    ((queueConsumerStep s publishOk).1.usage_queue ++
        (queueConsumerStep s publishOk).2).Perm s.usage_queue := by
  have hstep : queueConsumerStep s publishOk =
      (if s.isConnected = false then ({ s with usage_queue := rest ++ [d] }, [])
       else if publishOk then ({ s with usage_queue := rest }, [d])
       else ({ s with usage_queue := rest ++ [d], is_connected := false }, [])) := by
    unfold queueConsumerStep
    rw [hq]
  refine ⟨?_, ?_, ?_, ?_, ?_⟩
  · rw [hstep]
    split_ifs <;> simp
  · intro hc
    rw [hstep, if_pos hc]
  · intro hc hp
    rw [hstep, if_neg (by rw [hc]; simp), hp]
    simp
  · intro hc hp
    rw [hstep, if_neg (by rw [hc]; simp), hp]
    simp
  · rw [hstep, hq]
    split_ifs <;> simp

theorem drainer_no_loss_witness :
    queueConsumerStep
      { initialState 0 with
          usage_queue := [⟨"k1", "llm", "gpt-4", 100, none⟩] } true =
      ({ initialState 0 with usage_queue := [] ++ [⟨"k1", "llm", "gpt-4", 100, none⟩] },
        []) :=
  (drainer_no_loss _ true ⟨"k1", "llm", "gpt-4", 100, none⟩ [] rfl).2.1 rfl

/-- The wire message assembled by `_send_usage_data` for `billing/report`,
client.py lines 416-425.  `metadata := none` models the absence of the
`"metadata"` field: the code adds it only when `usage_data.metadata` is
truthy, i.e. neither `None` nor an empty dict. -/
structure UsageMessage where
  api_key : String
  module : String
  model : String
  usage : Int
  timestamp : Int
  metadata : Option (List (String × String))
deriving Repr, DecidableEq

/-- `BillingClient._send_usage_data`, client.py lines 411-427: raise if not
connected, otherwise build the message (stamped with the publish-time
millisecond timestamp `nowMs`) and publish it. -/
def sendUsageData (s : ClientState) (usage_data : UsageData) (nowMs : Int) :
    Except String UsageMessage :=
  if s.isConnected = false then .error "not connected to MQTT broker"
  else .ok
    { api_key := usage_data.api_key
      module := usage_data.module
      model := usage_data.model
      usage := usage_data.usage
      timestamp := nowMs
      metadata :=
        match usage_data.metadata with
        | none => none
        | some m => if m = [] then none else some m }

/-- C10: whenever `_send_usage_data` builds a wire message, the `metadata`
field is absent exactly when the record's metadata is `None` or an empty
mapping (the two are treated alike), it equals the record's metadata when
that is non-empty, and the message carries the record's `api_key`, `module`,
`model` and `usage` unchanged plus the publish-time integer timestamp. -/
theorem usage_message_fields (s : ClientState) (d : UsageData) (nowMs : Int)
    (msg : UsageMessage) (h : sendUsageData s d nowMs = .ok msg) :
    (msg.metadata = none ↔ d.metadata = none ∨ d.metadata = some []) ∧
    (∀ m, d.metadata = some m → m ≠ [] → msg.metadata = some m) ∧
    msg.api_key = d.api_key ∧ msg.module = d.module ∧ msg.model = d.model ∧
    msg.usage = d.usage ∧ msg.timestamp = nowMs := by
  unfold sendUsageData at h
  split_ifs at h with hc
  have hmsg := (Except.ok.injEq _ _).mp h
  subst hmsg
  refine ⟨?_, ?_, rfl, rfl, rfl, rfl, rfl⟩
  · cases hm : d.metadata with
    | none => simp [hm]
    | some m =>
      by_cases hme : m = []
      · simp [hm, hme]
      · simp [hm, hme]
  · intro m hm hme
    simp [hm, hme]

theorem usage_message_fields_witness :
    (∀ msg, sendUsageData
        { initialState 0 with is_connected := true, has_client := true }
        ⟨"k1", "llm", "gpt-4", 100, some []⟩ 1700000000000 = .ok msg →
      msg.metadata = none) ∧
    sendUsageData { initialState 0 with is_connected := true, has_client := true }
        ⟨"k1", "llm", "gpt-4", 100, some []⟩ 1700000000000 =
      .ok ⟨"k1", "llm", "gpt-4", 100, 1700000000000, none⟩ := by
  constructor
  · intro msg h
    exact (usage_message_fields _ _ _ msg h).1.mpr (Or.inr rfl)
  · rfl

/-- `BillingClient.report_usage`, client.py lines 509-520: `put_nowait` on
the unbounded queue — it appends and cannot fail, and it touches neither the
connection nor the transport. -/
def ClientState.reportUsage (s : ClientState) (usage_data : UsageData) :
    ClientState :=
  { s with usage_queue := s.usage_queue ++ [usage_data] }

/-- The module-level `report_usage` function, client.py lines 607-639:
`BillingClient.get_instance()` raises `RuntimeError` when the singleton
`_instance` is `None` (client.py lines 104-109, modelled by the `Option`);
otherwise a `UsageData` is built from the arguments and enqueued via the
method above.  (The `if not client` re-check on line 628 is dead: an
instance object is always truthy.) -/
def reportUsageGlobal (instOpt : Option ClientState) (api_key module model : String)
    (usage : Int) (metadata : Option (List (String × String))) :
    Except String ClientState :=
  match instOpt with
  | none => .error "BillingClient is not initialized"
  | some c => .ok (c.reportUsage ⟨api_key, module, model, usage, metadata⟩)

/-- C8: the global `report_usage` errors exactly when the singleton facade
is uninitialized; on any initialized facade — connected or not — it builds
the `UsageData` record from its arguments and appends it to the unbounded
queue, changing nothing else and surfacing no transport error. -/
theorem report_usage_spec (instOpt : Option ClientState)
    (api_key module model : String) (usage : Int)
    (metadata : Option (List (String × String))) :
    ((∃ e, reportUsageGlobal instOpt api_key module model usage metadata = .error e)
      ↔ instOpt = none) ∧
    (∀ c, instOpt = some c →
      reportUsageGlobal instOpt api_key module model usage metadata =
        .ok { c with usage_queue :=
                c.usage_queue ++ [⟨api_key, module, model, usage, metadata⟩] }) := by
  constructor
  · constructor
    · intro ⟨e, he⟩
      cases instOpt with
      | none => rfl
      | some c => simp [reportUsageGlobal] at he
    · intro h
      subst h
      exact ⟨"BillingClient is not initialized", rfl⟩
  · intro c hc
    subst hc
    rfl

theorem report_usage_spec_witness :
    reportUsageGlobal (some (initialState 0)) "k1" "llm" "gpt-4" 100 none =
      .ok { initialState 0 with
              usage_queue := [⟨"k1", "llm", "gpt-4", 100, none⟩] } := by
  have := (report_usage_spec (some (initialState 0)) "k1" "llm" "gpt-4" 100
    none).2 (initialState 0) rfl
  simpa [initialState] using this

/-- The heartbeat message `{"type": "heartbeat", "timestamp": <ms>}` built in
`_keepalive_loop`, client.py lines 345-348. -/
structure HeartbeatMsg where
  type : String
  timestamp : Int
deriving Repr, DecidableEq

/-- What one iteration of `_keepalive_loop` did: whether it handed control to
`_reconnect_with_backoff`, what (topic, message) it published, and the
resulting client state. -/
structure TickOutcome where
  reconnectRequested : Bool
  published : Option (String × HeartbeatMsg)
  state : ClientState
deriving DecidableEq

/-- One iteration of the `_keepalive_loop` body after the sleep, client.py
lines 325-356: the connection counts as lost when `not self._is_connected`,
`self._client is None`, or `now − last_heartbeat_success > 30`; a lost
connection triggers `await self._reconnect_with_backoff()` and skips the
heartbeat publish; otherwise the heartbeat is published to
`billing/heartbeat` — on success `_last_heartbeat_success` is set to the
`current_time` captured at the top of the iteration, on failure
`self._is_connected = False`. -/
def keepaliveTick (s : ClientState) (now : ℚ) (nowMs : Int)
    (publishOk connectSucceeds : Bool) : TickOutcome :=
  if s.is_connected = false ∨ s.has_client = false ∨
      now - s.last_heartbeat_success > connectionTimeout then
    { reconnectRequested := true
      published := none
      state := (reconnectWithBackoff s now connectSucceeds).2 }
  else if publishOk then
    { reconnectRequested := false
      published := some ("billing/heartbeat", ⟨"heartbeat", nowMs⟩)
      state := { s with last_heartbeat_success := now } }
  else
    { reconnectRequested := false
      published := none
      state := { s with is_connected := false } }

/-- C6: on a heartbeat tick, if the session is connected and
`now − last_heartbeat_success ≤ 30` then the message
`{"type":"heartbeat","timestamp":<ms>}` is published to `billing/heartbeat` —
updating `last_heartbeat_success` on publish success and marking the session
not-connected on publish failure — while otherwise (not connected, no
client, or the 30 s timeout exceeded) a reconnect is requested through the
backoff machinery and no heartbeat publish occurs on that tick. -/
theorem keepalive_tick_spec (s : ClientState) (now : ℚ) (nowMs : Int)
    (publishOk connectSucceeds : Bool) :
    (s.is_connected = true → s.has_client = true →
      now - s.last_heartbeat_success ≤ connectionTimeout →
      (publishOk = true →
        keepaliveTick s now nowMs publishOk connectSucceeds =
          { reconnectRequested := false
            published := some ("billing/heartbeat", ⟨"heartbeat", nowMs⟩)
            state := { s with last_heartbeat_success := now } }) ∧
      (publishOk = false →
        keepaliveTick s now nowMs publishOk connectSucceeds =
          { reconnectRequested := false
            published := none
            state := { s with is_connected := false } })) ∧
    ((s.is_connected = false ∨ s.has_client = false ∨
        now - s.last_heartbeat_success > connectionTimeout) →
      keepaliveTick s now nowMs publishOk connectSucceeds =
        { reconnectRequested := true
          published := none
          state := (reconnectWithBackoff s now connectSucceeds).2 }) := by
  constructor
  · intro hc hcl hhb
    have hcond : ¬ (s.is_connected = false ∨ s.has_client = false ∨
        now - s.last_heartbeat_success > connectionTimeout) := by
      push_neg
      exact ⟨by simp [hc], by simp [hcl], hhb⟩
    constructor
    · intro hp
      subst hp
      unfold keepaliveTick
      rw [if_neg hcond]
      simp
    · intro hp
      subst hp
      unfold keepaliveTick
      rw [if_neg hcond]
      simp
  · intro hcond
    unfold keepaliveTick
    rw [if_pos hcond]

theorem keepalive_tick_spec_witness :
    keepaliveTick
      { initialState 0 with is_connected := true, has_client := true } 31 31000
      true false =
      { reconnectRequested := true
        published := none
        state := (reconnectWithBackoff
          { initialState 0 with is_connected := true, has_client := true }
          31 false).2 } ∧
    keepaliveTick
      { initialState 0 with is_connected := true, has_client := true } 20 20000
      true true =
      { reconnectRequested := false
        published := some ("billing/heartbeat", ⟨"heartbeat", 20000⟩)
        state := { initialState 0 with
                     is_connected := true
                     has_client := true
                     last_heartbeat_success := 20 } } := by
  constructor
  · exact (keepalive_tick_spec _ 31 31000 true false).2
      (Or.inr (Or.inr (by norm_num [initialState, connectionTimeout])))
  · have := ((keepalive_tick_spec
      { initialState 0 with is_connected := true, has_client := true } 20 20000
      true true).1 rfl rfl (by norm_num [initialState, connectionTimeout])).1 rfl
    simpa [initialState] using this
